import Mathlib

/-!
Verification of the redis-py-sansio core against its specification.

The definitions below are a shallow embedding of the repository sources:

* `src/redis/sansio/writer.py` — the RESP multi-bulk command packer;
* `src/redis/sansio/callbacks/errors.py` — the server-error classifier;
* `src/sansredis/sansio/operator.py` — reply normalization, including
  MULTI/EXEC pipeline disambiguation;
* `src/sansredis/sansio/protocol.py` — protocol configuration, the
  on-connect routine, health checking and pipeline extension;
* `src/redis/io/aio.py` and `src/sansredis/io/sio.py` — the per-connection
  I/O protocol state machine (`send_command`, `data_received`,
  `connection_lost`);
* `src/sansredis/io/base.py` and `src/sansredis/io/sio.py` — the
  connection pool (`fill`/`acquire`/`release`), modelled sequentially.

Python exceptions are modelled as `Except` errors; Python `None` and implicit
falsy returns are modelled explicitly.  Bytes are modelled as `List Nat`
(one entry per byte; the payloads exercised here are ASCII, so the UTF-8
byte expansion of multi-byte characters is not modelled).  The module
`sansredis.sansio.events` is not present under `src/`; its `Command` /
`PipelinedCommands` data model is taken from the twin module
`redis/sansio/events.py` together with the data-model section of the spec
(`callback` is optional there, so the Lean structure gives it a default).
-/

/-- A single quote character, used to build Python error-message strings. -/
def squote : String := String.singleton (Char.ofNat 39)

/-- Byte strings, one `Nat` per byte. -/
abbrev Bytes := List Nat

/-- ASCII bytes of a string (the payloads in this development are ASCII). -/
def asciiBytes (s : String) : Bytes := s.data.map Char.toNat

/-- The RESP line terminator `\r\n`. -/
def crlf : Bytes := [13, 10]

/-- A parsed RESP reply value, as produced by the incremental reader.
`err` is a server `-ERR ...` reply, returned (not raised) as a typed
`ResponseError` value; `nil` is the RESP nil (Python `None`). -/
inductive Reply
  | nil
  | str (s : String)
  | int (n : Int)
  | arr (xs : List Reply)
  | err (msg : String)

/-- Whether a reply value is a `ResponseError` instance. -/
def Reply.isErr : Reply → Bool
  | .err _ => true
  | _ => false

/-- The error taxonomy of `redis/sansio/exceptions.py`, as *returned* error
objects.  `connectionError` is the builtin `ConnectionError` that the `ERR`
sub-map produces for `max number of clients reached`. -/
inductive RedisErr
  | responseError (msg : String)
  | connectionError (msg : String)
  | authenticationError (msg : String)
  | authenticationWrongNumberOfArgs (msg : String)
  | busyLoadingError (msg : String)
  | execAbortError (msg : String)
  | noScriptError (msg : String)
  | readOnlyError (msg : String)
  | noPermissionError (msg : String)
  | moduleError (msg : String)
  | pipelineResponseError (msg : String) (errs : List RedisErr)

/-- Python-level exceptions raised (not returned) by the embedded code. -/
inductive PyErr
  | typeError
  | valueError
  | indexError
  | watchError (msg : String)
  | redis (e : RedisErr)

/-- `MODULE_LOAD_ERROR` from `redis/sansio/constants.py`. -/
def MODULE_LOAD_ERROR : String :=
  "Error loading the extension. Please check the server logs."

/-- `NO_SUCH_MODULE_ERROR` from `redis/sansio/constants.py`. -/
def NO_SUCH_MODULE_ERROR : String :=
  "Error unloading module: no such module with that name"

/-- `MODULE_UNLOAD_NOT_POSSIBLE_ERROR` from `redis/sansio/constants.py`. -/
def MODULE_UNLOAD_NOT_POSSIBLE_ERROR : String :=
  "Error unloading module: operation not possible."

/-- `MODULE_EXPORTS_DATA_TYPES_ERROR` from `redis/sansio/constants.py`. -/
def MODULE_EXPORTS_DATA_TYPES_ERROR : String :=
  "Error unloading module: the module exports one or more module-side data types, can" ++
    squote ++ "t unload"

/-- `str.split(" ", maxsplit=1)` on the character list: the part before the
first space and the part after it, or `none` when there is no space (in which
case the Python two-way unpack raises `ValueError`). -/
def split_first_space : List Char → Option (List Char × List Char)
  | [] => none
  | c :: cs =>
    if c = ' ' then some ([], cs)
    else (split_first_space cs).map (fun p => (c :: p.1, p.2))

/-- Whether a string contains at least one space character. -/
def contains_space (s : String) : Bool := s.data.any (fun c => c = ' ')

/-- The `EXCEPTION_CLASSES` lookup of `redis/sansio/callbacks/errors.py`:
`error_code` selects a class, the `ERR` code sub-dispatches on the exact
message with `ResponseError` as the dictionary-get default, and an
unrecognized code yields `ResponseError(decoded)` over the whole input. -/
def classify_error (error_code message decoded : String) : RedisErr :=
  if error_code = "ERR" then
    if message = "max number of clients reached" then .connectionError message
    else if message = "Client sent AUTH, but no password is set" then
      .authenticationError message
    else if message = "invalid password" then .authenticationError message
    else if message = "wrong number of arguments for " ++ squote ++ "auth" ++ squote ++ " command" then
      .authenticationWrongNumberOfArgs message
    else if message = "wrong number of arguments for " ++ squote ++ "AUTH" ++ squote ++ " command" then
      .authenticationWrongNumberOfArgs message
    else if message = MODULE_LOAD_ERROR then .moduleError message
    else if message = MODULE_EXPORTS_DATA_TYPES_ERROR then .moduleError message
    else if message = NO_SUCH_MODULE_ERROR then .moduleError message
    else if message = MODULE_UNLOAD_NOT_POSSIBLE_ERROR then .moduleError message
    else .responseError message
  else if error_code = "EXECABORT" then .execAbortError message
  else if error_code = "LOADING" then .busyLoadingError message
  else if error_code = "NOSCRIPT" then .noScriptError message
  else if error_code = "READONLY" then .readOnlyError message
  else if error_code = "NOAUTH" then .authenticationError message
  else if error_code = "NOPERM" then .noPermissionError message
  else .responseError decoded

/-- `parse_error` of `redis/sansio/callbacks/errors.py`:
`error_code, message = decoded.split(" ", maxsplit=1)` is unguarded, so an
input without a space raises `ValueError` from the two-way unpack; otherwise
the error is classified through `EXCEPTION_CLASSES`. -/
def parse_error (response : String) : Except PyErr RedisErr :=
  match split_first_space response.data with
  | none => .error .valueError
  | some p => .ok (classify_error (String.mk p.1) (String.mk p.2) response)

/-- Values accepted by the writer encoder (`Writer._valid` minus `float`,
whose shortest-round-trip repr is not exercised by any claim). -/
inductive EncodableT
  | bytes (bs : Bytes)
  | str (s : String)
  | int (n : Int)

/-- `Writer.encode` with the default codec (`encoding=None`): strings via
`str.encode()` (UTF-8; ASCII modelled byte-per-char), ints as `b"%d"`,
bytes-like values as-is. -/
def encode : EncodableT → Bytes
  | .bytes bs => bs
  | .str s => asciiBytes s
  | .int n => asciiBytes (toString n)

/-- A command event (`events.Command` in `redis/sansio/events.py`).  The
`callback_kwargs` mapping is folded into the callback closure; `callback`
is optional per the data model of the spec. -/
structure Command where
  command : String
  modifiers : List EncodableT := []
  callback : Option (Reply → Reply) := none

/-- A pipeline event (`events.PipelinedCommands`). -/
structure PipelinedCommands where
  commands : List Command
  transaction : Bool := false
  raise_on_error : Bool := false

/-- A command or a pipeline, the two possible origins of a packed command. -/
inductive CommandEvent
  | single (c : Command)
  | pipeline (p : PipelinedCommands)

/-- A packed command (`events.PackedCommand`): origin plus payload bytes. -/
structure PackedCommand where
  command : CommandEvent
  payload : Bytes

/-- Helper for `splitVerb`: accumulate the current token (reversed) while
scanning the character list, dropping empty tokens as `str.split()` does. -/
def splitVerbAux : List Char → List Char → List String
  | [], acc => if acc.isEmpty then [] else [String.mk acc.reverse]
  | c :: cs, acc =>
      if c = ' ' then
        if acc.isEmpty then splitVerbAux cs []
        else String.mk acc.reverse :: splitVerbAux cs []
      else splitVerbAux cs (c :: acc)

/-- `event.command.split()`: whitespace-split of the verb into tokens,
with no empty tokens (the verbs in this development separate tokens with
single spaces). -/
def splitVerb (s : String) : List String := splitVerbAux s.data []

/-- `Writer._pack_command`: `*<N>\r\n` followed, for each verb token and
modifier, by `$<len>\r\n<bytes>\r\n`. -/
def _pack_command (event : Command) : Bytes :=
  let cmd := splitVerb event.command
  let args := event.modifiers
  let hdr := asciiBytes ("*" ++ toString (cmd.length + args.length)) ++ crlf
  (cmd.map EncodableT.str ++ args).foldl
    (fun buf arg =>
      let barg := encode arg
      buf ++ asciiBytes ("$" ++ toString barg.length) ++ crlf ++ barg ++ crlf)
    hdr

/-- `Writer._pack_pipeline`: the loop body executes
`output = self._pack_command(cmd)`, re-binding the accumulator to the frame
of the current command instead of extending it. -/
def _pack_pipeline (event : PipelinedCommands) : Bytes :=
  event.commands.foldl (fun _output cmd => _pack_command cmd) ([] : Bytes)

/-- `Writer.pack_command`: dispatch on the event kind and attach the origin. -/
def pack_command : CommandEvent → PackedCommand
  | .single c => { command := .single c, payload := _pack_command c }
  | .pipeline p => { command := .pipeline p, payload := _pack_pipeline p }

/-- The reply slot of an `events.Response`: either a (callback-processed)
reply value or an error object produced by `parse_error`. -/
inductive RVal
  | val (r : Reply)
  | errV (e : RedisErr)

/-- One entry of `PipelinedResponses.replies`: an `events.Response` object,
or a bare error object (the watch error appended by the
`(transaction, raise_on_error) = (true, false)` branch). -/
inductive ReplyItem
  | resp (c : Command) (r : RVal)
  | errItem (e : RedisErr)

/-- The normalized result of `RedisOperator.read_response`: a single
`events.Response`, a `events.PipelinedResponses` (its replies list), or a
returned (not raised) error object. -/
inductive ReadOutcome
  | response (c : Command) (r : RVal)
  | pipelined (items : List ReplyItem)
  | errValue (e : RedisErr)

/-- Whether a `ReplyItem` is a `Response` whose reply is an error object. -/
def ReplyItem.isErrReply : ReplyItem → Bool
  | .resp _ (.errV _) => true
  | _ => false

/-- Rebuild an error object of the same class with a new message, as
`r.reply.__class__(new_message)` does in `_annotate_exception`. -/
def RedisErr.withMessage : RedisErr → String → RedisErr
  | .responseError _, m => .responseError m
  | .connectionError _, m => .connectionError m
  | .authenticationError _, m => .authenticationError m
  | .authenticationWrongNumberOfArgs _, m => .authenticationWrongNumberOfArgs m
  | .busyLoadingError _, m => .busyLoadingError m
  | .execAbortError _, m => .execAbortError m
  | .noScriptError _, m => .noScriptError m
  | .readOnlyError _, m => .readOnlyError m
  | .noPermissionError _, m => .noPermissionError m
  | .moduleError _, m => .moduleError m
  | .pipelineResponseError _ errs, m => .pipelineResponseError m errs

/-- The message of an error object (`str(exc)` in Python). -/
def RedisErr.message : RedisErr → String
  | .responseError m => m
  | .connectionError m => m
  | .authenticationError m => m
  | .authenticationWrongNumberOfArgs m => m
  | .busyLoadingError m => m
  | .execAbortError m => m
  | .noScriptError m => m
  | .readOnlyError m => m
  | .noPermissionError m => m
  | .moduleError m => m
  | .pipelineResponseError m _ => m

/-- `RedisOperator._annotate_exception` in its keyword form
`(*, errors=...)`: wrap each indexed error response into a same-class error
annotated with the command position and verb, then collect them into a
`PipelineResponseError`.  Python string repr is modelled as quoting. -/
def _annotate_exception (errors : List (Nat × Command × RedisErr)) : RedisErr :=
  let annotated := errors.map (fun e =>
    RedisErr.withMessage e.2.2
      ("Command # " ++ toString e.1 ++ " (" ++ squote ++ e.2.1.command ++ squote ++
        ") of pipeline caused error: " ++ squote ++ e.2.2.message ++ squote))
  .pipelineResponseError
    ("Got " ++ toString errors.length ++ " errors in pipeline. See the " ++ squote ++
      "errors" ++ squote ++ " attribute for more information.")
    annotated

/-- `RedisOperator._iter_responses`: zip commands with replies; an error
reply is re-parsed through `parse_error` (which may raise `ValueError`), an
ordinary reply goes through the command callback when one is attached. -/
def _iter_responses : List Command → List Reply → Except PyErr (List ReplyItem)
  | cmd :: cmds, reply :: replies => do
      let item ←
        match reply with
        | .err m => do
            let e ← parse_error m
            pure (ReplyItem.resp cmd (.errV e))
        | r =>
            match cmd.callback with
            | some f => pure (ReplyItem.resp cmd (.val (f r)))
            | none => pure (ReplyItem.resp cmd (.val r))
      let rest ← _iter_responses cmds replies
      pure (item :: rest)
  | _, _ => pure []

/-- `RedisOperator._response_or_exc`: enumerate the normalized responses
from 1, collect error replies aside, and return either the
`PipelinedResponses` (no errors) or the annotated composite error value. -/
def _response_or_exc (commands : List Command) (replies : List Reply) :
    Except PyErr ReadOutcome := do
  let items ← _iter_responses commands replies
  let indexed := (items.enum).map (fun p => (p.1 + 1, p.2))
  let errs := indexed.filterMap (fun p =>
    match p.2 with
    | .resp c (.errV e) => some (p.1, c, e)
    | _ => none)
  let oks := items.filter (fun i => ¬ i.isErrReply)
  if errs.isEmpty then pure (.pipelined oks)
  else pure (.errValue (_annotate_exception errs))

/-- `RedisOperator._sanity_check_transaction`.  `replies.pop(0)` /
`replies.pop(-1)` are modelled by splitting off the first and last element
(an `IndexError` when there are fewer than two); the function returns the
watch error (if any), the mutated replies list (the command acks, referred
to by the caller as `reply`), and the exec body as a list.

A `ResponseError` among the command acks reaches
`self._annotate_exception(command=..., reply=..., pos=...)`, but that
static method only accepts the keyword `errors`, so the call itself raises
`TypeError`; consequently the `exc_errors` splice loop further down is dead
code and is not reached with a non-empty mapping.  A text exec body is
iterated character-wise downstream, as Python iteration over `str` does; a
numeric exec body fails `len()` with `TypeError`. -/
def _sanity_check_transaction (commands : List Command) (replies : List Reply) :
    Except PyErr (Option RedisErr × List Reply × List Reply) :=
  match replies with
  | [] => .error .indexError
  | [_] => .error .indexError
  | watch_response :: r₂ :: rtail => do
      let rest := r₂ :: rtail
      let acks := rest.dropLast
      let exec_reply := rest.getLastD .nil
      let watch_error ←
        match watch_response with
        | .err m => do
            let e ← parse_error m
            pure (some e)
        | _ => pure (none : Option RedisErr)
      if (commands.zip acks).any (fun p => p.2.isErr) then
        .error .typeError
      else
        match exec_reply with
        | .err m => do
            let e ← parse_error m
            .error (.redis e)
        | .nil => .error (.watchError "Watched variable changed.")
        | .arr xs =>
            if xs.length ≠ commands.length then
              .error (.redis (.responseError
                "Wrong number of response items from pipeline execution."))
            else .ok (watch_error, acks, xs)
        | .str s =>
            if s.length ≠ commands.length then
              .error (.redis (.responseError
                "Wrong number of response items from pipeline execution."))
            else .ok (watch_error, acks, s.data.map (fun ch => Reply.str (String.singleton ch)))
        | .int _ => .error .typeError

/-- `RedisOperator._read_pipelined_response`, dispatching on
`(transaction, raise_on_error)`.  In the `(true, true)` branch the source
passes the mutated `reply` list — the command acks — to `_response_or_exc`
and never uses the `exec_response` returned by the sanity check; in the
`(true, false)` branch it uses `exec_response`. -/
def _read_pipelined_response (event : PipelinedCommands) (reply : List Reply) :
    Except PyErr ReadOutcome :=
  match event.transaction, event.raise_on_error with
  | true, true => do
      let r ← _sanity_check_transaction event.commands reply
      match r.1 with
      | some watch_error => pure (.errValue watch_error)
      | none => _response_or_exc event.commands r.2.1
  | true, false => do
      let r ← _sanity_check_transaction event.commands reply
      let items ← _iter_responses event.commands r.2.2
      let pre := match r.1 with
        | some watch_error => [ReplyItem.errItem watch_error]
        | none => []
      pure (.pipelined (pre ++ items))
  | false, true => _response_or_exc event.commands reply
  | false, false => do
      let items ← _iter_responses event.commands reply
      pure (.pipelined items)

/-- `RedisOperator.read_response`: an error reply is re-classified through
`parse_error` and returned as a value; a pipeline origin goes through
`_read_pipelined_response` (a non-array pipeline reply fails the list
operations with `TypeError`); a single command applies its callback. -/
def read_response (event : CommandEvent) (response : Reply) :
    Except PyErr ReadOutcome :=
  match response with
  | .err m => do
      let e ← parse_error m
      pure (.errValue e)
  | r =>
      match event with
      | .pipeline p =>
          match r with
          | .arr xs => _read_pipelined_response p xs
          | _ => .error .typeError
      | .single c =>
          match c.callback with
          | some f => pure (.response c (.val (f r)))
          | none => pure (.response c (.val r))

/-- `ServerVersion` — a `(major, minor, patch)` named tuple. -/
abbrev ServerVersion := Nat × Nat × Nat

/-- Python tuple comparison `a >= b` (lexicographic). -/
def versionGE (a b : ServerVersion) : Bool :=
  if a.1 ≠ b.1 then a.1 > b.1
  else if a.2.1 ≠ b.2.1 then a.2.1 > b.2.1
  else a.2.2 ≥ b.2.2

/-- `SansIORedisProtocol._SUPPORTS_HELLO`. -/
def _SUPPORTS_HELLO : ServerVersion := (6, 0, 0)

/-- `AddressInfo` (the fields the on-connect routine consumes). -/
structure AddressInfo where
  db : Option Int := none
  password : Option String := none
  username : Option String := none

/-- `ClientInfo` (the fields the on-connect routine and health checking
consume).  `health_check_interval` and `next_health_check` are clock values
(floats in the source, modelled as integers). -/
structure ClientInfo where
  name : Option String := none
  health_check_interval : Int := 0
  next_health_check : Int := 0
  resp_version : Option String := none
  server_version : Option ServerVersion := none

/-- The protocol configuration state touched by `get_on_connect_routine`:
the address and client info plus which operator class is installed
(`operatorRESP2` is true when `self.operator` is a `RESP2RedisOperator`). -/
structure SansIORedisProtocol where
  address_info : AddressInfo
  client_info : ClientInfo
  operatorRESP2 : Bool := false

/-- Python truthiness of an optional string (`None` and `""` are falsy). -/
def truthy : Option String → Bool
  | none => false
  | some s => s ≠ ""

/-- Python `a or b` over an optional string with a default. -/
def strOr (a : Option String) (b : String) : String :=
  if truthy a then a.getD b else b

/-- `SansIORedisProtocol.get_on_connect_routine`.  Returns the updated
protocol state (resp version, operator class) together with the packed
`init` and `stack` payloads.  At `server_version ≥ (6,0,0)` the `init`
command is `HELLO <resp> [AUTH user pass] [SETNAME name]` and the stack can
only hold `SELECT`; below that the operator is replaced with a
`RESP2RedisOperator`, `init` is `AUTH <password>` when a password is
configured, and the stack collects `CLIENT SETNAME` and `SELECT`, packed as
a pipeline with `raise_on_error=True` when it holds more than one command. -/
def get_on_connect_routine (p : SansIORedisProtocol) :
    SansIORedisProtocol × Option PackedCommand × Option PackedCommand :=
  let username := p.address_info.username
  let password := p.address_info.password
  let cname := p.client_info.name
  let server_version := (p.client_info.server_version).getD (0, 0, 0)
  let branch :
      SansIORedisProtocol × Option Command × List Command :=
    if versionGE server_version _SUPPORTS_HELLO then
      let rv := (p.client_info.resp_version).getD "3"
      let mods := [EncodableT.str rv]
        ++ (if truthy username ∨ truthy password then
              [EncodableT.str "AUTH", EncodableT.str (strOr username "default"),
               EncodableT.str (strOr password "")]
            else [])
        ++ (if truthy cname then
              [EncodableT.str "SETNAME", EncodableT.str (cname.getD "")]
            else [])
      ({ p with client_info := { p.client_info with resp_version := some rv } },
       some { command := "HELLO", modifiers := mods },
       [])
    else
      let p1 : SansIORedisProtocol :=
        { p with client_info := { p.client_info with resp_version := some "2" },
                 operatorRESP2 := true }
      let init : Option Command :=
        if truthy password then
          some { command := "AUTH", modifiers := [EncodableT.str (password.getD "")] }
        else none
      let stack : List Command :=
        if truthy cname then
          [{ command := "CLIENT SETNAME", modifiers := [EncodableT.str (cname.getD "")] }]
        else []
      (p1, init, stack)
  let command_stack := branch.2.2 ++
    (match p.address_info.db with
     | some db => [{ command := "SELECT", modifiers := [EncodableT.int db] : Command }]
     | none => [])
  let packed_init := branch.2.1.map (fun c => pack_command (.single c))
  let packed_stack :=
    match command_stack with
    | [] => none
    | [c] => some (pack_command (.single c))
    | cs => some (pack_command (.pipeline
        { commands := cs, transaction := false, raise_on_error := true }))
  (branch.1, packed_init, packed_stack)

/-- `SansIORedisProtocol.should_check_health`: the source reads
`if cinfo.health_check_interval and curtime < cinfo.next_health_check:
return True` (and otherwise falls off the end, returning falsy `None`). -/
def should_check_health (cinfo : ClientInfo) (curtime : Int) : Bool :=
  cinfo.health_check_interval ≠ 0 ∧ curtime < cinfo.next_health_check

/-- The health-check predicate as the spec words it: health checking is
enabled and the clock is past `next_health_check`. -/
def should_check_health_spec (cinfo : ClientInfo) (curtime : Int) : Bool :=
  cinfo.health_check_interval ≠ 0 ∧ cinfo.next_health_check ≤ curtime

/-- The call `self.make_command(command=command, *args, callback=callback,
**callback_kwargs)` inside `SansIORedisProtocol.extend_pipeline`: the
positional `*args` also bind the first parameter `command`, so any call
with modifiers raises `TypeError` (multiple values for `command`); an
argument-free call builds the command event. -/
def make_command_star_call (command : String) (args : List EncodableT)
    (callback : Option (Reply → Reply)) : Except PyErr Command :=
  if args.isEmpty then
    .ok { command := command, modifiers := [], callback := callback }
  else .error .typeError

/-- `pipeline.commands.extend(event)` with `event` a single
`events.Command`: `list.extend` requires an iterable, and the
attrs-generated `Command` class defines neither `__iter__` nor
`__getitem__`, so the call raises `TypeError`. -/
def commands_extend_with_command (_commands : List Command) (_event : Command) :
    Except PyErr (List Command) :=
  .error .typeError

/-- `SansIORedisProtocol.extend_pipeline` (the delegate of the
pipeline-building `execute_command`): build the command event, then extend
the pipeline command list with it. -/
def extend_pipeline (pl : PipelinedCommands) (command : String)
    (args : List EncodableT) (callback : Option (Reply → Reply)) :
    Except PyErr PipelinedCommands := do
  let event ← make_command_star_call command args callback
  let cs ← commands_extend_with_command pl.commands event
  pure { pl with commands := cs }

/-- `_State` in `redis/io/aio.py` / `sansredis/io/sio.py`. -/
inductive ConnState
  | not_connected
  | connected
  | error
deriving DecidableEq

/-- Connection-level exceptions stored on the protocol
(`InvalidResponse`, `ConnectionError`). -/
inductive Exc
  | invalidResponse (msg : String)
  | connectionError (msg : String)

/-- The value an in-flight future is completed with by the read loop:
`fut.set_result(response)` or `fut.set_exception(response)`. -/
inductive Resolution
  | result (o : ReadOutcome)
  | excResult (e : RedisErr)

/-- The mutable state of `RedisAsyncIOProtocol` (the sync variant stores
the same fields): state enum, FIFO of pending waiters (the origin command
of each in-flight packed command), the stored terminal cause, and the
transport flags.  `resolved` records, in order, every waiter completion
performed by the read loop. -/
structure IOProtocolState where
  state : ConnState
  waiters : List CommandEvent
  resolved : List Resolution
  exc : Option Exc := none
  transport_closing : Bool := false
  disconnect_waiter_set : Bool := false

/-- The message of the unpaired-reply error in `_get_fut`. -/
def extra_data_msg : String :=
  "Got additional data on the stream. Are you connected to a supported Redis instance?"

/-- `_set_exception`: record the cause and move to the `error` state. -/
def _set_exception (e : Exc) (s : IOProtocolState) : IOProtocolState :=
  { s with exc := some e, state := .error }

/-- The display verb of a command event, standing in for Python repr in the
`send_command` error messages. -/
def origin_verb : CommandEvent → String
  | .single c => c.command
  | .pipeline _ => "<pipeline>"

/-- The successful outcome of `send_command`: the updated protocol state,
the payload written to the transport (if any), and whether the returned
future was completed immediately with a `ConnectionClosed` event. -/
structure SendOutcome where
  state : IOProtocolState
  wrote : Option Bytes
  closed_event : Bool

/-- `RedisAsyncIOProtocol.send_command`: when `connected`, either resolve
immediately with `ConnectionClosed` (transport closing) or write the
payload and append the waiter; when `not_connected`, raise
`ConnectionError`; when `error`, re-raise the stored cause (or a generic
`ConnectionError` when none was stored). -/
def send_command (event : PackedCommand) (s : IOProtocolState) :
    Except Exc SendOutcome :=
  match s.state with
  | .connected =>
      if s.transport_closing then .ok { state := s, wrote := none, closed_event := true }
      else .ok { state := { s with waiters := s.waiters ++ [event.command] },
                 wrote := some event.payload, closed_event := false }
  | .not_connected =>
      .error (.connectionError
        ("Lost operator while sending command: " ++ origin_verb event.command))
  | .error =>
      .error ((s.exc).getD (.connectionError
        ("Got an unknown error while sending command: " ++ origin_verb event.command)))

/-- `_get_fut`: pop the next pending waiter; with an empty FIFO, mark the
connection `error` with the unpaired-data `InvalidResponse` and yield
nothing. -/
def _get_fut (s : IOProtocolState) : Option CommandEvent × IOProtocolState :=
  match s.waiters with
  | [] => (none, _set_exception (.invalidResponse extra_data_msg) s)
  | w :: rest => (some w, { s with waiters := rest })

/-- The loop body of `data_received` over the values yielded by
`operator.iterparse()`: pop a waiter for each parsed value (skipping the
value when there is none) and complete the waiter with the normalized
response — `set_exception` when the normalization returned an error
object, `set_result` otherwise.  An exception raised by `read_response`
propagates out of the loop. -/
def data_received_loop : List Reply → IOProtocolState → Except PyErr IOProtocolState
  | [], s => .ok s
  | v :: vs, s =>
      match _get_fut s with
      | (none, s1) => data_received_loop vs s1
      | (some w, s1) => do
          let out ← read_response w v
          let res :=
            match out with
            | .errValue e => Resolution.excResult e
            | o => Resolution.result o
          data_received_loop vs { s1 with resolved := s1.resolved ++ [res] }

/-- `RedisAsyncIOProtocol.data_received`: ignore data unless `connected`;
otherwise feed the chunk to the operator and drain `iterparse()`.  The
reader seam is abstracted by `values`, the complete values the chunk
yields. -/
def data_received (values : List Reply) (s : IOProtocolState) :
    Except PyErr IOProtocolState :=
  if s.state = .connected then data_received_loop values s else .ok s

/-- `connection_lost`: with an exception, store it; with none, when still
`connected`, store `ConnectionError("Lost connection to server.")`; then
signal the disconnect waiter.  Pending waiters are not touched. -/
def connection_lost (exc : Option Exc) (s : IOProtocolState) : IOProtocolState :=
  let s1 : IOProtocolState :=
    match exc with
    | some e => _set_exception e s
    | none =>
        if s.state = ConnState.connected then
          _set_exception (Exc.connectionError "Lost connection to server.")
            { s with state := ConnState.not_connected }
        else s
  { s1 with disconnect_waiter_set := true }

/-- A pooled connection: an identity plus its `is_connected` flag.  In the
sequential model `make_connection` + `connect()` always yields a connected
connection (the hypothesis of the pool claim). -/
structure Conn where
  id : Nat
  is_connected : Bool
deriving DecidableEq

/-- The pool state of `BaseIORedisConnectionPool`: the `free` deque, the
`in_use` set (modelled as a list of distinct connections), the `acquiring`
counter, and a counter for fresh connection identities. -/
structure PoolState where
  free : List Conn
  inuse : List Conn
  acquiring : Nat
  next_id : Nat

/-- `BaseIORedisConnectionPool.size`. -/
def PoolState.size (s : PoolState) : Nat :=
  s.free.length + s.inuse.length + s.acquiring

/-- `deque.rotate(1)`: move the last element to the front. -/
def rotate1 (xs : List Conn) : List Conn :=
  match xs.getLast? with
  | none => xs
  | some c => c :: xs.dropLast

/-- The loop body of `_drop_closed`: `range(available())` iterations of
checking `free[0]`, popping it when closed, rotating right otherwise. -/
def drop_closed_loop : Nat → List Conn → List Conn
  | 0, xs => xs
  | _ + 1, [] => []
  | n + 1, c :: rest =>
      if c.is_connected then drop_closed_loop n (rotate1 (c :: rest))
      else drop_closed_loop n rest

/-- `BaseIORedisConnectionPool._drop_closed`. -/
def drop_closed (s : PoolState) : PoolState :=
  { s with free := drop_closed_loop s.free.length s.free }

/-- One iteration of the `fill` loop over `iterconn`: bump `acquiring`,
make a fresh connection, let the caller connect it and append it to
`free`, drop `acquiring` in the generator finally-block, then prune
closed connections again. -/
def fill_step (s : PoolState) : PoolState :=
  let c : Conn := { id := s.next_id, is_connected := true }
  let s1 : PoolState :=
    { s with acquiring := s.acquiring + 1, next_id := s.next_id + 1 }
  let s2 : PoolState :=
    { s1 with free := s1.free ++ [c], acquiring := s1.acquiring - 1 }
  drop_closed s2

/-- The `while self.size() < minc` loop of `iterconn`, with fuel (`minc`
steps suffice: each iteration appends one connected connection). -/
def fill_min_loop (minc : Nat) : Nat → PoolState → PoolState
  | 0, s => s
  | fuel + 1, s =>
      if s.size < minc then fill_min_loop minc fuel (fill_step s) else s

/-- The `while self.size() < maxc and not self.available()` loop of
`iterconn` under `override_min`. -/
def fill_max_loop (maxc : Nat) : Nat → PoolState → PoolState
  | 0, s => s
  | fuel + 1, s =>
      if s.size < maxc ∧ s.free.length = 0 then
        fill_max_loop maxc fuel (fill_step s)
      else s

/-- `fill(override_min)` as driven by `iterconn`: prune closed
connections, fill up to `min_connections`, and under `override_min` keep
adding until a free connection exists or `max_connections` is reached. -/
def pool_fill (minc maxc : Nat) (override_min : Bool) (s : PoolState) : PoolState :=
  if override_min then fill_max_loop maxc maxc (fill_min_loop minc minc (drop_closed s))
  else fill_min_loop minc minc (drop_closed s)

/-- `acquire`: `fill(override_min=True)`, then pop the left of `free` into
`in_use` when a connection is available; otherwise the caller waits on the
condition variable (modelled as returning no connection). -/
def pool_acquire (minc maxc : Nat) (s : PoolState) : PoolState × Option Conn :=
  let s1 := pool_fill minc maxc true s
  match s1.free with
  | [] => (s1, none)
  | c :: rest => ({ s1 with free := rest, inuse := s1.inuse ++ [c] }, some c)

/-- `release`: a connection the pool does not own is disconnected and
dropped (pool state unchanged); an owned connection leaves `in_use` and
rejoins `free` only while still connected. -/
def pool_release (c : Conn) (s : PoolState) : PoolState :=
  if c ∈ s.inuse then
    let s1 : PoolState := { s with inuse := s.inuse.erase c }
    if c.is_connected then { s1 with free := s1.free ++ [c] } else s1
  else s

/-- The sequential pool operations of the claim. -/
inductive PoolOp
  | fillOp (override_min : Bool)
  | acquireOp
  | releaseOp (c : Conn)

/-- Run one pool operation. -/
def run_op (minc maxc : Nat) (s : PoolState) : PoolOp → PoolState
  | .fillOp b => pool_fill minc maxc b s
  | .acquireOp => (pool_acquire minc maxc s).1
  | .releaseOp c => pool_release c s

/-- Run a sequence of pool operations. -/
def run_ops (minc maxc : Nat) (s : PoolState) : List PoolOp → PoolState
  | [] => s
  | op :: ops => run_ops minc maxc (run_op minc maxc s op) ops

/-- A fresh pool: no connections, nothing being acquired. -/
def fresh_pool : PoolState := { free := [], inuse := [], acquiring := 0, next_id := 0 }

/-- Every connection tracked by the pool is connected (this holds in the
sequential model, where `make_connection` yields connected connections
and nothing disconnects them). -/
def all_connected (s : PoolState) : Prop :=
  (∀ c ∈ s.free, c.is_connected = true) ∧ (∀ c ∈ s.inuse, c.is_connected = true)

/-- The pool invariant at rest: every tracked connection is connected and
the pool size is within `max_connections`. -/
def pool_inv (maxc : Nat) (s : PoolState) : Prop :=
  all_connected s ∧ s.size ≤ maxc

theorem rotate1_length (xs : List Conn) : (rotate1 xs).length = xs.length := by
  cases h : xs.getLast? with
  | none => simp [rotate1, h]
  | some c =>
      have hne : xs ≠ [] := by
        intro heq
        subst heq
        simp at h
      have hpos : 0 < xs.length := List.length_pos.mpr hne
      simp [rotate1, h, List.length_dropLast]
      omega

theorem rotate1_subset (xs : List Conn) : rotate1 xs ⊆ xs := by
  cases h : xs.getLast? with
  | none => simp [rotate1, h]
  | some c =>
      intro d hd
      simp [rotate1, h] at hd
      rcases hd with rfl | hd
      · rcases List.mem_getLast?_eq_getLast (show d ∈ xs.getLast? from h) with ⟨hne, hc⟩
        rw [hc]
        exact List.getLast_mem hne
      · exact (List.dropLast_sublist xs).subset hd

theorem drop_closed_loop_subset (n : Nat) : ∀ xs : List Conn, drop_closed_loop n xs ⊆ xs := by
  induction n with
  | zero => intro xs; simp [drop_closed_loop]
  | succ n ih =>
      intro xs
      cases xs with
      | nil => simp [drop_closed_loop]
      | cons c rest =>
          simp only [drop_closed_loop]
          by_cases h : c.is_connected = true
      
          · rw [if_pos h]
            exact (ih _).trans (rotate1_subset _)
          · rw [if_neg h]
            exact (ih rest).trans (List.subset_cons_self c rest)

theorem drop_closed_loop_length_all (n : Nat) :
    ∀ xs : List Conn, (∀ c ∈ xs, c.is_connected = true) →
      (drop_closed_loop n xs).length = xs.length := by
  induction n with
  | zero => intro xs _; rfl
  | succ n ih =>
      intro xs h
      cases xs with
      | nil => rfl
      | cons c rest =>
          have hc : c.is_connected = true := h c (List.mem_cons_self c rest)
          have hall : ∀ d ∈ rotate1 (c :: rest), d.is_connected = true :=
            fun d hd => h d (rotate1_subset _ hd)
          simp only [drop_closed_loop]
          rw [if_pos hc, ih _ hall, rotate1_length]

theorem drop_closed_all (s : PoolState) (h : all_connected s) :
    all_connected (drop_closed s) :=
  ⟨fun c hc => h.1 c (drop_closed_loop_subset _ _ hc), h.2⟩

theorem drop_closed_size (s : PoolState) (h : all_connected s) :
    (drop_closed s).size = s.size := by
  unfold drop_closed PoolState.size
  simp [drop_closed_loop_length_all _ _ h.1]

theorem fill_step_all (s : PoolState) (h : all_connected s) :
    all_connected (fill_step s) := by
  unfold fill_step
  refine drop_closed_all _ ⟨?_, h.2⟩
  intro c hc
  rcases List.mem_append.mp hc with hc | hc
  · exact h.1 c hc
  · simp at hc
    subst hc
    rfl

theorem fill_step_size (s : PoolState) (h : all_connected s) :
    (fill_step s).size = s.size + 1 := by
  unfold fill_step
  rw [drop_closed_size]
  · unfold PoolState.size
    simp
    omega
  · refine ⟨?_, h.2⟩
    intro c hc
    rcases List.mem_append.mp hc with hc | hc
    · exact h.1 c hc
    · simp at hc
      subst hc
      rfl

theorem fill_min_loop_all (minc fuel : Nat) :
    ∀ s, all_connected s → all_connected (fill_min_loop minc fuel s) := by
  induction fuel with
  | zero => intro s h; exact h
  | succ fuel ih =>
      intro s h
      simp only [fill_min_loop]
      split
      · exact ih _ (fill_step_all s h)
      · exact h

theorem fill_min_loop_size_le (minc fuel : Nat) :
    ∀ s k, all_connected s → s.size ≤ k → minc ≤ k →
      (fill_min_loop minc fuel s).size ≤ k := by
  induction fuel with
  | zero => intro s k _ hs _; exact hs
  | succ fuel ih =>
      intro s k h hs hm
      simp only [fill_min_loop]
      split
      · rename_i hlt
        refine ih _ _ (fill_step_all s h) ?_ hm
        rw [fill_step_size s h]
        omega
      · exact hs

theorem fill_min_loop_size_ge (minc fuel : Nat) :
    ∀ s, all_connected s → minc - s.size ≤ fuel →
      minc ≤ (fill_min_loop minc fuel s).size := by
  induction fuel with
  | zero =>
      intro s _ hf
      simp only [fill_min_loop]
      omega
  | succ fuel ih =>
      intro s h hf
      simp only [fill_min_loop]
      split
      · rename_i hlt
        refine ih _ (fill_step_all s h) ?_
        rw [fill_step_size s h]
        omega
      · rename_i hge
        omega

theorem fill_max_loop_all (maxc fuel : Nat) :
    ∀ s, all_connected s → all_connected (fill_max_loop maxc fuel s) := by
  induction fuel with
  | zero => intro s h; exact h
  | succ fuel ih =>
      intro s h
      simp only [fill_max_loop]
      split
      · exact ih _ (fill_step_all s h)
      · exact h

theorem fill_max_loop_size_le (maxc fuel : Nat) :
    ∀ s k, all_connected s → s.size ≤ k → maxc ≤ k →
      (fill_max_loop maxc fuel s).size ≤ k := by
  induction fuel with
  | zero => intro s k _ hs _; exact hs
  | succ fuel ih =>
      intro s k h hs hm
      simp only [fill_max_loop]
      split
      · rename_i hlt
        refine ih _ _ (fill_step_all s h) ?_ hm
        rw [fill_step_size s h]
        omega
      · exact hs

theorem fill_max_loop_size_ge (maxc fuel : Nat) :
    ∀ s, all_connected s → s.size ≤ (fill_max_loop maxc fuel s).size := by
  induction fuel with
  | zero => intro s _; exact le_refl _
  | succ fuel ih =>
      intro s h
      simp only [fill_max_loop]
      split
      · have := ih _ (fill_step_all s h)
        rw [fill_step_size s h] at this
        omega
      · exact le_refl _

theorem pool_fill_all (minc maxc : Nat) (b : Bool) (s : PoolState)
    (h : all_connected s) : all_connected (pool_fill minc maxc b s) := by
  cases b with
  | false =>
      simpa [pool_fill] using fill_min_loop_all minc minc _ (drop_closed_all s h)
  | true =>
      simpa [pool_fill] using
        fill_max_loop_all maxc maxc _ (fill_min_loop_all minc minc _ (drop_closed_all s h))

theorem pool_fill_size_le (minc maxc : Nat) (b : Bool) (s : PoolState)
    (h : all_connected s) (hs : s.size ≤ maxc) (hm : minc ≤ maxc) :
    (pool_fill minc maxc b s).size ≤ maxc := by
  have h1 := drop_closed_all s h
  have e1 := drop_closed_size s h
  have l2 := fill_min_loop_size_le minc minc (drop_closed s) maxc h1 (by omega) hm
  cases b with
  | false => simpa [pool_fill] using l2
  | true =>
      have h2 := fill_min_loop_all minc minc _ h1
      simpa [pool_fill] using
        fill_max_loop_size_le maxc maxc _ maxc h2 l2 (le_refl _)

theorem pool_fill_size_ge (minc maxc : Nat) (b : Bool) (s : PoolState)
    (h : all_connected s) : minc ≤ (pool_fill minc maxc b s).size := by
  have h1 := drop_closed_all s h
  have hge := fill_min_loop_size_ge minc minc (drop_closed s) h1 (by omega)
  cases b with
  | false => simpa [pool_fill] using hge
  | true =>
      have h2 := fill_min_loop_all minc minc _ h1
      have := fill_max_loop_size_ge maxc maxc _ h2
      simp only [pool_fill, if_pos]
      omega

theorem pool_acquire_all (minc maxc : Nat) (s : PoolState) (h : all_connected s) :
    all_connected (pool_acquire minc maxc s).1 := by
  have h1 := pool_fill_all minc maxc true s h
  cases hf : (pool_fill minc maxc true s).free with
  | nil =>
      simp only [pool_acquire, hf]
      exact h1
  | cons c rest =>
      simp only [pool_acquire, hf]
      refine ⟨?_, ?_⟩
      · intro d hd
        exact h1.1 d (by rw [hf]; exact List.mem_cons_of_mem _ hd)
      · intro d hd
        rcases List.mem_append.mp hd with hd | hd
        · exact h1.2 d hd
        · simp at hd
          subst hd
          exact h1.1 d (by rw [hf]; exact List.mem_cons_self _ _)

theorem pool_acquire_size_le (minc maxc : Nat) (s : PoolState)
    (h : all_connected s) (hs : s.size ≤ maxc) (hm : minc ≤ maxc) :
    (pool_acquire minc maxc s).1.size ≤ maxc := by
  have hle := pool_fill_size_le minc maxc true s h hs hm
  cases hf : (pool_fill minc maxc true s).free with
  | nil =>
      simp only [pool_acquire, hf]
      exact hle
  | cons c rest =>
      simp only [pool_acquire, hf]
      unfold PoolState.size at hle ⊢
      rw [hf] at hle
      simp only [List.length_cons, List.length_append, List.length_nil] at hle ⊢
      omega

theorem pool_release_all (c : Conn) (s : PoolState) (h : all_connected s) :
    all_connected (pool_release c s) := by
  unfold pool_release
  split
  · rename_i hmem
    split
    · rename_i hconn
      refine ⟨?_, ?_⟩
      · intro d hd
        simp only at hd
        rcases List.mem_append.mp hd with hd | hd
        · exact h.1 d hd
        · simp at hd
          subst hd
          exact hconn
      · intro d hd
        exact h.2 d (List.mem_of_mem_erase hd)
    · exact ⟨h.1, fun d hd => h.2 d (List.mem_of_mem_erase hd)⟩
  · exact h

theorem pool_release_size_le (c : Conn) (s : PoolState) :
    (pool_release c s).size ≤ s.size := by
  unfold pool_release PoolState.size
  split
  · rename_i hmem
    have he : (s.inuse.erase c).length = s.inuse.length - 1 :=
      List.length_erase_of_mem hmem
    have hpos : 0 < s.inuse.length := List.length_pos.mpr (List.ne_nil_of_mem hmem)
    split
    · simp only [List.length_append, List.length_singleton, he]
      omega
    · simp only [he]
      omega
  · exact le_refl _

theorem run_op_inv (minc maxc : Nat) (hm : minc ≤ maxc) (s : PoolState)
    (h : pool_inv maxc s) (op : PoolOp) : pool_inv maxc (run_op minc maxc s op) := by
  cases op with
  | fillOp b =>
      exact ⟨pool_fill_all minc maxc b s h.1, pool_fill_size_le minc maxc b s h.1 h.2 hm⟩
  | acquireOp =>
      exact ⟨pool_acquire_all minc maxc s h.1, pool_acquire_size_le minc maxc s h.1 h.2 hm⟩
  | releaseOp c =>
      exact ⟨pool_release_all c s h.1, le_trans (pool_release_size_le c s) h.2⟩

theorem run_ops_inv (minc maxc : Nat) (hm : minc ≤ maxc) :
    ∀ (ops : List PoolOp) (s : PoolState), pool_inv maxc s →
      pool_inv maxc (run_ops minc maxc s ops) := by
  intro ops
  induction ops with
  | nil => intro s h; exact h
  | cons op ops ih =>
      intro s h
      exact ih _ (run_op_inv minc maxc hm s h op)

theorem split_first_space_eq_none (cs : List Char) :
    split_first_space cs = none ↔ cs.any (fun c => c = ' ') = false := by
  induction cs with
  | nil => simp [split_first_space]
  | cons c cs ih =>
      by_cases h : c = ' '
      · simp [split_first_space, h]
      · simp [split_first_space, h, Option.map_eq_none', ih]

/-- C1: packing a `PipelinedCommands` is claimed to concatenate, in command
order, the RESP multi-bulk frames of the constituent commands.  The code
re-binds the accumulator on every iteration, so the payload of a packed
two-command pipeline equals the frame of the *last* command alone and is
not the concatenation of both frames. -/
theorem pack_pipeline_keeps_only_last_frame :
    (pack_command (.pipeline { commands :=
        [{ command := "GET", modifiers := [.str "a"] },
         { command := "GET", modifiers := [.str "b"] }] })).payload
      = _pack_command { command := "GET", modifiers := [.str "b"] } ∧
    (pack_command (.pipeline { commands :=
        [{ command := "GET", modifiers := [.str "a"] },
         { command := "GET", modifiers := [.str "b"] }] })).payload
      ≠ _pack_command { command := "GET", modifiers := [.str "a"] } ++
        _pack_command { command := "GET", modifiers := [.str "b"] } := by
  refine ⟨rfl, ?_⟩
  decide

/-- C2: for a one-command transaction with wire reply
`[OK, QUEUED, [1]]`, the `raise_on_error=true` branch builds the replies
from the command acks (`QUEUED`), while the `raise_on_error=false` branch
builds them from the exec body (`1`); the claim that both correspond to the
exec body fails on the former. -/
theorem transaction_raise_branch_uses_acks :
    read_response
        (.pipeline { commands := [{ command := "INCR" }],
                     transaction := true, raise_on_error := true })
        (.arr [.str "OK", .str "QUEUED", .arr [.int 1]])
      = .ok (.pipelined [.resp { command := "INCR" } (.val (.str "QUEUED"))]) ∧
    read_response
        (.pipeline { commands := [{ command := "INCR" }],
                     transaction := true, raise_on_error := false })
        (.arr [.str "OK", .str "QUEUED", .arr [.int 1]])
      = .ok (.pipelined [.resp { command := "INCR" } (.val (.int 1))]) :=
  ⟨rfl, rfl⟩

/-- C3: with a nil exec body, the sanity check raises
`WatchError("Watched variable changed.")` when no command ack is an error,
but a `ResponseError` among the acks reaches the invalid keyword call to
`_annotate_exception` first and raises `TypeError` instead — the claimed
"regardless of the contents of the cmd_acks" fails. -/
theorem nil_exec_body_watch_error_and_ack_error :
    read_response
        (.pipeline { commands := [{ command := "INCR" }],
                     transaction := true, raise_on_error := false })
        (.arr [.str "OK", .str "QUEUED", .nil])
      = .error (.watchError "Watched variable changed.") ∧
    read_response
        (.pipeline { commands := [{ command := "INCR" }],
                     transaction := true, raise_on_error := false })
        (.arr [.str "OK", .err "ERR boom", .nil])
      = .error .typeError :=
  ⟨rfl, rfl⟩

/-- C4: losing a connected connection records
`ConnectionError("Lost connection to server.")` as the stored cause and
moves the state to `error`, but the pending waiter FIFO is untouched and no
waiter is resolved — contradicting the claim that every pending waiter is
resolved with the error. -/
theorem connection_lost_leaves_waiters_pending :
    (connection_lost none
        { state := .connected, waiters := [.single { command := "GET" }],
          resolved := [] }).exc
      = some (.connectionError "Lost connection to server.") ∧
    (connection_lost none
        { state := .connected, waiters := [.single { command := "GET" }],
          resolved := [] }).state = .error ∧
    (connection_lost none
        { state := .connected, waiters := [.single { command := "GET" }],
          resolved := [] }).waiters = [.single { command := "GET" }] ∧
    (connection_lost none
        { state := .connected, waiters := [.single { command := "GET" }],
          resolved := [] }).resolved = [] :=
  ⟨rfl, rfl, rfl, rfl⟩

/-- C5: a complete value parsed while the waiter FIFO is empty poisons the
connection: the state becomes `error` with the stored
`InvalidResponse` cause, and a subsequent `send_command` raises that
stored cause instead of writing. -/
theorem unpaired_reply_poisons_connection (s : IOProtocolState) (v : Reply)
    (ev : PackedCommand) (hconn : s.state = .connected)
    (hempty : s.waiters = []) :
    data_received [v] s
      = .ok (_set_exception (.invalidResponse extra_data_msg) s) ∧
    (_set_exception (.invalidResponse extra_data_msg) s).state = .error ∧
    (_set_exception (.invalidResponse extra_data_msg) s).exc
      = some (.invalidResponse extra_data_msg) ∧
    send_command ev (_set_exception (.invalidResponse extra_data_msg) s)
      = .error (.invalidResponse extra_data_msg) := by
  refine ⟨?_, rfl, rfl, ?_⟩
  · simp [data_received, hconn, data_received_loop, _get_fut, hempty]
  · simp [send_command, _set_exception]

theorem unpaired_reply_poisons_connection_witness :
    data_received [.str "PONG"] { state := .connected, waiters := [], resolved := [] }
      = .ok (_set_exception (.invalidResponse extra_data_msg)
          { state := .connected, waiters := [], resolved := [] }) ∧
    (_set_exception (.invalidResponse extra_data_msg)
        { state := .connected, waiters := [], resolved := [] }).state = .error ∧
    (_set_exception (.invalidResponse extra_data_msg)
        { state := .connected, waiters := [], resolved := [] }).exc
      = some (.invalidResponse extra_data_msg) ∧
    send_command { command := .single { command := "PING" }, payload := [] }
        (_set_exception (.invalidResponse extra_data_msg)
          { state := .connected, waiters := [], resolved := [] })
      = .error (.invalidResponse extra_data_msg) :=
  unpaired_reply_poisons_connection
    { state := .connected, waiters := [], resolved := [] } (.str "PONG")
    { command := .single { command := "PING" }, payload := [] } rfl rfl

/-- C6: `should_check_health` is claimed to return true exactly when health
checking is enabled and the clock is at or past `next_health_check`; the
source comparison is inverted (`curtime < next_health_check`), so an
overdue check returns falsy and a not-yet-due check returns true. -/
theorem should_check_health_comparison_inverted :
    should_check_health { health_check_interval := 1, next_health_check := 0 } 1
      = false ∧
    should_check_health_spec { health_check_interval := 1, next_health_check := 0 } 1
      = true ∧
    should_check_health { health_check_interval := 1, next_health_check := 0 } (-1)
      = true ∧
    should_check_health_spec { health_check_interval := 1, next_health_check := 0 } (-1)
      = false := by
  refine ⟨?_, ?_, ?_, ?_⟩ <;> decide

/-- C9: the pipeline-building `execute_command` delegates to
`extend_pipeline`, which is claimed to append the command as one new list
element; instead every invocation raises `TypeError` — with modifiers the
starred `make_command` call binds `command` twice, and even without
modifiers `list.extend` is handed a non-iterable `Command`. -/
theorem extend_pipeline_always_raises :
    extend_pipeline { commands := [] } "PING" [] none = .error .typeError ∧
    extend_pipeline { commands := [] } "GET" [.str "k"] none = .error .typeError :=
  ⟨rfl, rfl⟩

/-- C10: `parse_error` yields an error object only for inputs that contain
at least one space; every space-free input makes the unguarded two-way
split raise `ValueError`. -/
theorem parse_error_requires_space (s : String) :
    (contains_space s = false → parse_error s = .error .valueError) ∧
    (∀ e, parse_error s = .ok e → contains_space s = true) := by
  have hmain : contains_space s = false → parse_error s = .error .valueError := by
    intro h
    have hn : split_first_space s.data = none := by
      rw [split_first_space_eq_none]
      simpa [contains_space] using h
    simp [parse_error, hn]
  refine ⟨hmain, ?_⟩
  intro e he
  cases hb : contains_space s with
  | true => rfl
  | false =>
      rw [hmain hb] at he
      cases he

theorem parse_error_requires_space_witness :
    contains_space "LOADING" = false ∧
    parse_error "LOADING" = .error .valueError :=
  ⟨by decide, (parse_error_requires_space "LOADING").1 (by decide)⟩

/-- C8: starting from a fresh pool with `min_connections ≤ max_connections`,
every sequence of fill, acquire and release operations (modelled
sequentially, with `make_connection` yielding connected connections) keeps
the pool size `|free| + |in_use| + acquiring` within `max_connections`
(it is a `Nat`, so `0 ≤ size` holds by construction), and any completed
fill leaves the size at least `min_connections`. -/
theorem pool_size_invariant (minc maxc : Nat) (ops : List PoolOp)
    (hm : minc ≤ maxc) :
    (run_ops minc maxc fresh_pool ops).size ≤ maxc ∧
    ∀ b : Bool,
      minc ≤ (pool_fill minc maxc b (run_ops minc maxc fresh_pool ops)).size := by
  have hfresh : pool_inv maxc fresh_pool := by
    refine ⟨⟨?_, ?_⟩, ?_⟩
    · intro c hc
      simp [fresh_pool] at hc
    · intro c hc
      simp [fresh_pool] at hc
    · simp [fresh_pool, PoolState.size]
  have hinv := run_ops_inv minc maxc hm ops fresh_pool hfresh
  exact ⟨hinv.2, fun b => pool_fill_size_ge minc maxc b _ hinv.1⟩

theorem pool_size_invariant_witness :
    (run_ops 1 2 fresh_pool
        [.fillOp false, .acquireOp, .releaseOp { id := 0, is_connected := true }]).size ≤ 2 ∧
    1 ≤ (pool_fill 1 2 false (run_ops 1 2 fresh_pool
        [.fillOp false, .acquireOp, .releaseOp { id := 0, is_connected := true }])).size :=
  ⟨(pool_size_invariant 1 2
      [.fillOp false, .acquireOp, .releaseOp { id := 0, is_connected := true }]
      (by decide)).1,
   (pool_size_invariant 1 2
      [.fillOp false, .acquireOp, .releaseOp { id := 0, is_connected := true }]
      (by decide)).2 false⟩

/-- C7: the on-connect routine.  At `server_version ≥ (6,0,0)` the init
payload is `HELLO <resp>` carrying `AUTH user pass` exactly when a username
or password is configured and `SETNAME name` exactly when a client name is
configured, the stack is a packed `SELECT db` exactly when a db is
configured, and the operator is left as-is.  Below `(6,0,0)` (including an
unknown version, which defaults to `(0,0,0)`) the operator is forced to
RESP2, init is a packed `AUTH password` exactly when a password is
configured, and the stack carries `CLIENT SETNAME` and/or `SELECT`, packed
as a pipeline with `raise_on_error=true` whenever it holds more than one
command. -/
theorem on_connect_routine_matches_config (p : SansIORedisProtocol) :
    (versionGE ((p.client_info.server_version).getD (0, 0, 0)) _SUPPORTS_HELLO = true →
      (get_on_connect_routine p).2.1 = some (pack_command (.single
        { command := "HELLO",
          modifiers := [EncodableT.str ((p.client_info.resp_version).getD "3")]
            ++ (if truthy p.address_info.username ∨ truthy p.address_info.password then
                  [EncodableT.str "AUTH",
                   EncodableT.str (strOr p.address_info.username "default"),
                   EncodableT.str (strOr p.address_info.password "")]
                else [])
            ++ (if truthy p.client_info.name then
                  [EncodableT.str "SETNAME", EncodableT.str ((p.client_info.name).getD "")]
                else []) })) ∧
      (get_on_connect_routine p).2.2 = (match p.address_info.db with
        | some db => some (pack_command (.single
            { command := "SELECT", modifiers := [EncodableT.int db] }))
        | none => none) ∧
      (get_on_connect_routine p).1.operatorRESP2 = p.operatorRESP2) ∧
    (versionGE ((p.client_info.server_version).getD (0, 0, 0)) _SUPPORTS_HELLO = false →
      (get_on_connect_routine p).1.operatorRESP2 = true ∧
      (get_on_connect_routine p).1.client_info.resp_version = some "2" ∧
      (get_on_connect_routine p).2.1 = (if truthy p.address_info.password then
          some (pack_command (.single
            { command := "AUTH",
              modifiers := [EncodableT.str ((p.address_info.password).getD "")] }))
        else none) ∧
      (get_on_connect_routine p).2.2 = (match
          (if truthy p.client_info.name then
            [({ command := "CLIENT SETNAME",
                modifiers := [EncodableT.str ((p.client_info.name).getD "")] } : Command)]
          else [])
          ++ (match p.address_info.db with
              | some db =>
                  [{ command := "SELECT", modifiers := [EncodableT.int db] : Command }]
              | none => []) with
        | [] => none
        | [c] => some (pack_command (.single c))
        | cs => some (pack_command (.pipeline
            { commands := cs, transaction := false, raise_on_error := true })))) := by
  constructor
  · intro hv
    cases hdb : p.address_info.db <;>
      refine ⟨?_, ?_, ?_⟩ <;>
        simp only [get_on_connect_routine, hv, hdb, eq_self_iff_true, if_true,
          Option.map_some', List.nil_append]
  · intro hv
    cases hpw : truthy p.address_info.password <;>
      cases hcn : truthy p.client_info.name <;>
        cases hdb : p.address_info.db <;>
          refine ⟨?_, ?_, ?_, ?_⟩ <;>
            simp only [get_on_connect_routine, hv, hpw, hcn, hdb, Bool.false_eq_true,
              eq_self_iff_true, if_true, if_false, Option.map_some', Option.map_none',
              List.nil_append, List.cons_append]

theorem on_connect_routine_matches_config_witness :
    (get_on_connect_routine
        { address_info := {}, client_info := { server_version := some (6, 0, 0) } }).2.1
      = some (pack_command (.single
          { command := "HELLO", modifiers := [EncodableT.str "3"] })) ∧
    (get_on_connect_routine
        { address_info := {}, client_info := { server_version := some (6, 0, 0) } }).2.2
      = none ∧
    (get_on_connect_routine
        { address_info := { password := some "hunter2" },
          client_info := { name := some "cli" } }).1.operatorRESP2 = true := by
  have h6 := (on_connect_routine_matches_config
      { address_info := {}, client_info := { server_version := some (6, 0, 0) } }).1
    (by decide)
  have hOld := (on_connect_routine_matches_config
      { address_info := { password := some "hunter2" },
        client_info := { name := some "cli" } }).2
    (by decide)
  refine ⟨?_, ?_, hOld.1⟩
  · rw [h6.1]
    rfl
  · rw [h6.2.1]
